import Mathlib

/-!
Shallow embedding of the `cim-domain-bevy` crate: the async/sync channel
bridge (`src/bridge.rs`), the event/command taxonomy (`src/events.rs`),
the visual morphism systems (`src/morphisms.rs`), the command handlers
(`src/handlers/mod.rs`), the plugin registration (`src/plugin.rs`) and the
NATS component bridge (`src/nats_component_bridge.rs`), together with
theorems settling the specification claims about them.

Machine floats (`f32`) are embedded as an inductive that records the one
aspect the code inspects (finiteness) and otherwise carries an exact value;
no floating-point arithmetic occurs in any embedded function.  `Uuid`
values are embedded as natural numbers; fresh-uuid generation
(`Uuid::new_v4`, `GraphId::new()`) is embedded by threading an explicit
supply counter.  `serde_json::Value` is embedded as an inductive `Json`.
-/

/-- `uuid::Uuid`, abstracted to a natural number (only equality is used). -/
structure Uuid where
  val : Nat
deriving DecidableEq, Repr

/-- `cim_contextgraph::NodeId` (a Uuid newtype). -/
structure NodeId where
  id : Uuid
deriving DecidableEq, Repr

/-- `cim_contextgraph::EdgeId` (a Uuid newtype). -/
structure EdgeId where
  id : Uuid
deriving DecidableEq, Repr

/-- `cim_contextgraph::ContextGraphId` (a Uuid newtype), aliased `GraphId`. -/
structure GraphId where
  id : Uuid
deriving DecidableEq, Repr

/-- An `f32` value, embedded by its finiteness class: JSON and the code at
hand only ever construct finite values or test `is_finite`; no
floating-point arithmetic is performed by the embedded functions. -/
inductive F32 where
  | finite (v : Int)
  | nan
  | inf
  | neginf
deriving DecidableEq, Repr

/-- `f32::is_finite`. -/
def F32.isFinite : F32 → Bool
  | .finite _ => true
  | _ => false

/-- `bevy::math::Vec3`. -/
structure Vec3 where
  x : F32
  y : F32
  z : F32
deriving DecidableEq, Repr

/-- `Vec3::ZERO`. -/
def Vec3.zero : Vec3 := ⟨.finite 0, .finite 0, .finite 0⟩

/-- `serde_json::Value`. -/
inductive Json where
  | null
  | bool (b : Bool)
  | num (n : Int)
  | str (s : String)
  | arr (items : List Json)
  | obj (fields : List (String × Json))

/-- `crate::events::EdgeRelationship`. -/
inductive EdgeRelationship where
  | connected
  | parentChild
  | dependsOn
  | dataFlow
  | controlFlow
  | custom (s : String)

/-- `crate::events::DomainEvent` (src/events.rs): events flowing from the
domain layer to the visualization. -/
inductive DomainEvent where
  | nodeAdded (graph_id : GraphId) (node_id : NodeId)
      (position : Option Vec3) (metadata : Json)
  | nodeRemoved (graph_id : GraphId) (node_id : NodeId)
  | edgeAdded (graph_id : GraphId) (edge_id : EdgeId)
      (source : NodeId) (target : NodeId) (relationship : EdgeRelationship)
  | edgeRemoved (graph_id : GraphId) (edge_id : EdgeId)
  | nodeMetadataUpdated (graph_id : GraphId) (node_id : NodeId) (metadata : Json)
  | edgeMetadataUpdated (graph_id : GraphId) (edge_id : EdgeId) (metadata : Json)

/-- `crate::events::VisualizationCommand` (src/events.rs): commands from the
visualization back to the domain. -/
inductive VisualizationCommand where
  | createNode (graph_id : GraphId) (position : Vec3) (metadata : Option Json)
  | deleteNode (graph_id : GraphId) (node_id : NodeId)
  | updateNodePosition (graph_id : GraphId) (node_id : NodeId) (position : Vec3)
  | createEdge (graph_id : GraphId) (source : NodeId) (target : NodeId)
      (relationship : EdgeRelationship)
  | deleteEdge (graph_id : GraphId) (edge_id : EdgeId)

/-- `crate::bridge::BridgeError` (src/bridge.rs lines 12-18). -/
inductive BridgeError where
  | channelDisconnected
  | channelFull
deriving DecidableEq, Repr

/-- Outcome of one call to `crossbeam_channel::Sender::send` on a bounded
channel: the call returns `Ok` after enqueueing, returns `Err(SendError)`
when every receiver has been dropped, and otherwise — queue full with a
live receiver — blocks and does not return until space appears. -/
inductive SendAttempt (α : Type) where
  | ok (queue : List α)
  | disconnected
  | blocked

/-- `crossbeam_channel::Sender::send` on a bounded channel whose current
queue is `queue` (head = oldest element). -/
def crossbeamSend (capacity : Nat) (queue : List α) (receiversAlive : Bool)
    (v : α) : SendAttempt α :=
  if receiversAlive = false then .disconnected
  else if queue.length < capacity then .ok (queue ++ [v])
  else .blocked

/-- `crate::bridge::CategoricalBridge` (src/bridge.rs lines 21-27): the two
bounded channel pairs.  Each channel is represented by its queue together
with a flag recording whether any receiving endpoint is still alive (the
bridge itself holds one receiver of each channel, so the flags are `true`
for as long as any clone of the bridge exists). -/
structure CategoricalBridge where
  capacity : Nat
  /-- queue of the domain → visual channel (head = oldest). -/
  domainToBevy : List DomainEvent
  /-- queue of the visual → domain channel (head = oldest). -/
  bevyToDomain : List VisualizationCommand
  /-- some receiver of the domain → visual channel is alive. -/
  domainReceiversAlive : Bool
  /-- some receiver of the visual → domain channel is alive. -/
  commandReceiversAlive : Bool

/-- `CategoricalBridge::new(capacity)` (src/bridge.rs lines 31-39): both
channels empty, both receivers held by the bridge itself. -/
def CategoricalBridge.new (capacity : Nat) : CategoricalBridge :=
  { capacity := capacity
    domainToBevy := []
    bevyToDomain := []
    domainReceiversAlive := true
    commandReceiversAlive := true }

/-- Outcome of one bridge method call: either the call returns a value
(with the bridge state after the call), or it blocks and never returns. -/
inductive CallOutcome (ρ : Type) where
  | returns (value : ρ) (after : CategoricalBridge)
  | blocked

/-- `CategoricalBridge::send_command` (src/bridge.rs lines 52-55):
`self.bevy_to_domain.0.send(command).map_err(|_| ChannelDisconnected)`.
The underlying `send` is the blocking variant. -/
def send_command (b : CategoricalBridge) (command : VisualizationCommand) :
    CallOutcome (Except BridgeError Unit) :=
  match crossbeamSend b.capacity b.bevyToDomain b.commandReceiversAlive command with
  | .ok q => .returns (.ok ()) { b with bevyToDomain := q }
  | .disconnected => .returns (.error BridgeError.channelDisconnected) b
  | .blocked => .blocked

/-- The collecting loop of `receive_domain_events`:
`while let Ok(event) = self.domain_to_bevy.1.try_recv() { events.push(event) }`.
`try_recv` pops the head while the queue is nonempty and errors (ending the
loop) once it is empty. -/
def drainLoop : List α → List α
  | [] => []
  | x :: rest => x :: drainLoop rest

/-- `CategoricalBridge::receive_domain_events` (src/bridge.rs lines 58-64):
non-blocking drain of the domain → visual queue; returns the collected
events and the bridge state after the call (queue emptied). -/
def receive_domain_events (b : CategoricalBridge) :
    List DomainEvent × CategoricalBridge :=
  (drainLoop b.domainToBevy, { b with domainToBevy := [] })

/-- `CategoricalBridge::send_domain_event` (src/bridge.rs lines 67-72):
`self.domain_sender().send(event)` — the blocking `send` — with any error
merely printed (`eprintln`) and discarded; the function returns `()`. -/
def send_domain_event (b : CategoricalBridge) (event : DomainEvent) :
    CallOutcome Unit :=
  match crossbeamSend b.capacity b.domainToBevy b.domainReceiversAlive event with
  | .ok q => .returns () { b with domainToBevy := q }
  | .disconnected => .returns () b
  | .blocked => .blocked

/-- A sequence of `send_domain_event` calls; `some b` when every call
returns (final bridge state `b`), `none` when some call blocks. -/
def sendAllDomain (b : CategoricalBridge) : List DomainEvent → Option CategoricalBridge
  | [] => some b
  | e :: rest =>
    match send_domain_event b e with
    | .returns _ b' => sendAllDomain b' rest
    | .blocked => none

/-- One blocking `recv`/`try_recv` step on the cloned handle returned by
`CategoricalBridge::command_receiver` (src/bridge.rs lines 47-49): pops the
oldest queued command. -/
def command_receiver_recv (b : CategoricalBridge) :
    Option (VisualizationCommand × CategoricalBridge) :=
  match b.bevyToDomain with
  | [] => none
  | c :: rest => some (c, { b with bevyToDomain := rest })

/-- Draining every queued command through the `command_receiver` handle. -/
def command_receiver_drain (b : CategoricalBridge) :
    List VisualizationCommand × CategoricalBridge :=
  (drainLoop b.bevyToDomain, { b with bevyToDomain := [] })

/-- `crate::value_objects::Position` (src/value_objects/mod.rs lines 41-46):
an `f32` triple component. -/
structure Position where
  x : F32
  y : F32
  z : F32
deriving DecidableEq, Repr

/-- `Position::is_valid` (src/value_objects/mod.rs lines 53-55):
`self.x.is_finite() && self.y.is_finite() && self.z.is_finite()`. -/
def Position.isValid (p : Position) : Bool :=
  p.x.isFinite && p.y.isFinite && p.z.isFinite

/-- `crate::components::NodeVisual` (src/components.rs lines 32-36). -/
structure NodeVisualC where
  node_id : NodeId
  graph_id : GraphId
deriving DecidableEq, Repr

/-- `cim_domain::EcsComponentData`: a dynamically typed component payload
(component type name plus JSON data), as consumed by
src/nats_component_bridge.rs. -/
structure EcsComponentData where
  component_type : String
  data : Json

/-- A Bevy ECS entity, as a record of the components this development
needs: each field is the (optional) component of that type attached to the
entity.  `eid` is the entity id allocated at spawn time. -/
structure WEntity where
  eid : Nat
  /-- `crate::components::NodeVisual` component. -/
  nodeVisual : Option NodeVisualC := none
  /-- translation of the `Transform` component. -/
  transform : Option Vec3 := none
  /-- `crate::value_objects::NodeId` component. -/
  nodeIdComp : Option NodeId := none
  /-- `crate::value_objects::Position` component. -/
  positionComp : Option Position := none
  /-- `NatsSyncedEntity` marker component (its `entity_id`). -/
  natsSynced : Option Uuid := none
  /-- `PendingComponentUpdate` marker component (its `component_data`). -/
  pending : Option EcsComponentData := none
  /-- `bevy::core::Name` component (its string). -/
  nameComp : Option String := none

/-- `crate::events::RemoveNodeVisual` (src/events.rs lines 63-67). -/
structure RemoveNodeVisualEv where
  node_id : NodeId
  graph_id : GraphId

/-- `crate::events::CreateNodeVisual` (src/events.rs lines 32-38). -/
structure CreateNodeVisualEv where
  graph_id : GraphId
  node_id : NodeId
  position : Vec3
  metadata : Json

/-- `crate::events::CreateEdgeVisual` (src/events.rs lines 41-48). -/
structure CreateEdgeVisualEv where
  graph_id : GraphId
  edge_id : EdgeId
  source_id : NodeId
  target_id : NodeId
  relationship : EdgeRelationship

/-- `crate::events::RemoveEdgeVisual` (src/events.rs lines 70-74). -/
structure RemoveEdgeVisualEv where
  edge_id : EdgeId
  graph_id : GraphId

/-- `crate::events::VisualNodeCreated` (src/events/mod.rs lines 29-33). -/
structure VisualNodeCreatedEv where
  entity : Nat
  node_id : NodeId
  position : Vec3

/-- `crate::commands::MoveNode` (src/commands/mod.rs lines 27-32). -/
structure MoveNodeCmd where
  node_id : NodeId
  new_position : Position
  animate : Bool

/-- `crate::events::NodeMoved` (src/events/mod.rs lines 45-51). -/
structure NodeMovedEv where
  entity : Nat
  node_id : NodeId
  old_position : Position
  new_position : Position

/-- `crate::morphisms::remove_node_visual` (src/morphisms.rs lines 203-216)
processing one `RemoveNodeVisual` event: the query iterates every entity
carrying a `NodeVisual` component and despawns each one whose
`node_visual.node_id` equals `event.node_id` (no break — all matches are
despawned); entities without a `NodeVisual` component are not in the query
and are untouched. -/
def remove_node_visual (world : List WEntity) (event : RemoveNodeVisualEv) :
    List WEntity :=
  world.filter fun e =>
    match e.nodeVisual with
    | some nv => decide (nv.node_id ≠ event.node_id)
    | none => true

/-- `crate::handlers::handle_move_node` (src/handlers/mod.rs lines 37-64)
processing one `MoveNode` event: the query iterates entities carrying both
a `NodeId` and a `Position` component; at the first entity whose id
matches, if `event.new_position.is_valid()` the position is overwritten and
a `NodeMoved` event is emitted, and either way the loop breaks.  Returns
the world after the event and the emitted `NodeMoved` events. -/
def handle_move_node (world : List WEntity) (event : MoveNodeCmd) :
    List WEntity × List NodeMovedEv :=
  match world with
  | [] => ([], [])
  | e :: rest =>
    match e.nodeIdComp, e.positionComp with
    | some nid, some pos =>
      if nid = event.node_id then
        if event.new_position.isValid then
          ({ e with positionComp := some event.new_position } :: rest,
            [⟨e.eid, nid, pos, event.new_position⟩])
        else (e :: rest, [])
      else
        let r := handle_move_node rest event
        (e :: r.1, r.2)
    | _, _ =>
      let r := handle_move_node rest event
      (e :: r.1, r.2)

/-- The per-frame event streams written by the consumer system
`handle_domain_events` of examples/visual_demo.rs (lines 623-669). -/
structure DemoRouted where
  createNodes : List CreateNodeVisualEv
  removeNodes : List RemoveNodeVisualEv
  createEdges : List CreateEdgeVisualEv
  removeEdges : List RemoveEdgeVisualEv

/-- `handle_domain_events` (examples/visual_demo.rs lines 623-669): routes
each drained `DomainEvent` to the corresponding visual event stream; a
`NodeAdded` becomes a `CreateNodeVisual` with `position.unwrap_or(Vec3::ZERO)`.
Metadata-update events have no arm there and are dropped. -/
def handle_domain_events : List DomainEvent → DemoRouted
  | [] => ⟨[], [], [], []⟩
  | ev :: rest =>
    let r := handle_domain_events rest
    match ev with
    | .nodeAdded g n pos md =>
      { r with createNodes := ⟨g, n, pos.getD Vec3.zero, md⟩ :: r.createNodes }
    | .nodeRemoved g n =>
      { r with removeNodes := ⟨n, g⟩ :: r.removeNodes }
    | .edgeAdded g eid s t rel =>
      { r with createEdges := ⟨g, eid, s, t, rel⟩ :: r.createEdges }
    | .edgeRemoved g eid =>
      { r with removeEdges := ⟨eid, g⟩ :: r.removeEdges }
    | .nodeMetadataUpdated _ _ _ => r
    | .edgeMetadataUpdated _ _ _ => r

/-- `crate::components::NodeVisualBundle::new` (src/components.rs lines
102-113): the spawned entity carries a `NodeVisual { node_id, graph_id }`
component and a `Transform::from_translation(position)` (the remaining
bundle members are default visibility markers carrying no data). `eid` is
the entity id the spawn allocates. -/
def NodeVisualBundle.new (node_id : NodeId) (graph_id : GraphId)
    (position : Vec3) (eid : Nat) : WEntity :=
  { eid := eid
    nodeVisual := some ⟨node_id, graph_id⟩
    transform := some position }

/-- State threaded through `create_node_visual`: the world, the
`VisualNodeCreated` events written so far, the next entity id the spawn
allocator hands out, and the next value of the fresh-uuid supply used to
embed `GraphId::new()`. -/
structure SpawnState where
  world : List WEntity
  created : List VisualNodeCreatedEv
  freshEid : Nat
  freshUuid : Nat

/-- `crate::morphisms::create_node_visual` (src/morphisms.rs lines 179-200):
for each `CreateNodeVisual` event, spawns one entity with
`NodeVisualBundle::new(event.node_id, GraphId::new(), event.position)` and
writes a `VisualNodeCreated { entity, node_id, position }` event. -/
def create_node_visual (st : SpawnState) : List CreateNodeVisualEv → SpawnState
  | [] => st
  | ev :: rest =>
    create_node_visual
      { world := st.world ++
          [NodeVisualBundle.new ev.node_id ⟨⟨st.freshUuid⟩⟩ ev.position st.freshEid]
        created := st.created ++ [⟨st.freshEid, ev.node_id, ev.position⟩]
        freshEid := st.freshEid + 1
        freshUuid := st.freshUuid + 1 } rest

/-- The systems the crate's plugins register in the `Update` schedule. -/
inductive SystemId where
  | processDomainEvents
  | sendVisualizationCommands
  | createNodeVisualSys
  | removeNodeVisualSys
  | createEdgeVisualSys
  | removeEdgeVisualSys
  | updateLayoutFromHints
  | applyLayoutAlgorithm
  | handleLayoutCommands
  | updateEdgeVisualization
  | highlightConnectedEdges
  | updateEdgeWeights
  | handleEdgeStateChanges
  | animateEdgeFlow
  | processNatsComponentEvents
  | applyComponentUpdatesSys
deriving DecidableEq, Repr, Fintype

/-- One `add_systems(Update, ...)` call: the tuple of systems and whether
`.chain()` was applied to it (Bevy only constrains the relative order of
systems inside a chained tuple; a plain tuple leaves the order to the
scheduler). -/
structure SystemSet where
  systems : List SystemId
  chained : Bool

/-- The `Update`-schedule registrations performed by `CimVizPlugin::build`
(src/plugin.rs lines 60-103): four plain tuples, none chained. -/
def cimVizUpdateSystems : List SystemSet :=
  [ ⟨[.processDomainEvents, .sendVisualizationCommands], false⟩
  , ⟨[.createNodeVisualSys, .removeNodeVisualSys,
      .createEdgeVisualSys, .removeEdgeVisualSys], false⟩
  , ⟨[.updateLayoutFromHints, .applyLayoutAlgorithm, .handleLayoutCommands], false⟩
  , ⟨[.updateEdgeVisualization, .highlightConnectedEdges, .updateEdgeWeights,
      .handleEdgeStateChanges, .animateEdgeFlow], false⟩ ]

/-- The `Update`-schedule registration performed by
`NatsComponentPlugin::build` (src/nats_component_bridge.rs lines 168-181):
a tuple with `.chain()`. -/
def natsComponentUpdateSystems : List SystemSet :=
  [ ⟨[.processNatsComponentEvents, .applyComponentUpdatesSys], true⟩ ]

/-- All systems registered by a list of `add_systems` calls. -/
def allSystems (reg : List SystemSet) : List SystemId :=
  (reg.map SystemSet.systems).flatten

/-- `a` runs before `b` in the execution order `ord`. -/
def precedes (ord : List SystemId) (a b : SystemId) : Prop :=
  a ∈ ord ∧ b ∈ ord ∧ ord.indexOf a < ord.indexOf b

instance (ord : List SystemId) (a b : SystemId) : Decidable (precedes ord a b) := by
  unfold precedes; infer_instance

/-- The registration constrains `a` to run before `b`: some chained tuple
lists `a` before `b`. -/
def mustPrecede (reg : List SystemSet) (a b : SystemId) : Prop :=
  ∃ s ∈ reg, s.chained = true ∧ precedes s.systems a b

instance (reg : List SystemSet) (a b : SystemId) : Decidable (mustPrecede reg a b) := by
  unfold mustPrecede; infer_instance

/-- Bevy scheduler semantics for a single `Update` tick: an execution order
is valid iff it runs each registered system exactly as often as registered
and respects every `.chain()` constraint; nothing else constrains the
order. -/
def validSchedule (reg : List SystemSet) (ord : List SystemId) : Prop :=
  (∀ s : SystemId, ord.count s = (allSystems reg).count s) ∧
  (∀ a b : SystemId, mustPrecede reg a b → precedes ord a b)

instance (reg : List SystemSet) (ord : List SystemId) :
    Decidable (validSchedule reg ord) := by
  unfold validSchedule; infer_instance

/-- `serde_json::from_value::<Position3D>` (helper struct of
src/nats_component_bridge.rs lines 184-189): requires a JSON object with
numeric fields `x`, `y`, `z`. -/
def decodePosition3D (j : Json) : Option (F32 × F32 × F32) :=
  match j with
  | .obj fields =>
    match (fields.find? fun p => p.1 = "x"),
        (fields.find? fun p => p.1 = "y"),
        (fields.find? fun p => p.1 = "z") with
    | some (_, .num x), some (_, .num y), some (_, .num z) =>
      some (.finite x, .finite y, .finite z)
    | _, _, _ => none
  | _ => none

/-- `serde_json::from_value::<LabelData>` (src/nats_component_bridge.rs
lines 191-194): requires a JSON object with a string field `text`. -/
def decodeLabelData (j : Json) : Option String :=
  match j with
  | .obj fields =>
    match fields.find? fun p => p.1 = "text" with
    | some (_, .str s) => some s
    | _ => none
  | _ => none

/-- `serde_json::from_value::<WorkflowState>` (src/nats_component_bridge.rs
lines 196-202): requires string fields `state` and `definition_id`;
`started_at` and `completed_at` are optional timestamp strings (absent or
null decodes to `None`; the timestamp text itself is kept abstract since
the decoded value is only logged). -/
def decodeWorkflowState (j : Json) : Option (String × String × Option String × Option String) :=
  match j with
  | .obj fields =>
    let opt : String → Option (Option String) := fun k =>
      match fields.find? fun p => p.1 = k with
      | none => some none
      | some (_, .null) => some none
      | some (_, .str s) => some (some s)
      | some _ => none
    match (fields.find? fun p => p.1 = "state"),
        (fields.find? fun p => p.1 = "definition_id"),
        opt "started_at", opt "completed_at" with
    | some (_, .str st), some (_, .str d), some sa, some ca => some (st, d, sa, ca)
    | _, _, _, _ => none
  | _ => none

/-- The body of the `match` on `component_data.component_type` inside
`apply_component_updates` (src/nats_component_bridge.rs lines 126-149):
a decoded `Position3D` inserts a `Transform`, a decoded `Label` inserts a
`Name`, `WorkflowStateComponent` only logs, any other type only warns; a
failed decode leaves the entity as it is. -/
def applyComponentData (e : WEntity) (pd : EcsComponentData) : WEntity :=
  if pd.component_type = "Position3D" then
    match decodePosition3D pd.data with
    | some (x, y, z) => { e with transform := some ⟨x, y, z⟩ }
    | none => e
  else if pd.component_type = "Label" then
    match decodeLabelData pd.data with
    | some text => { e with nameComp := some text }
    | none => e
  else if pd.component_type = "WorkflowStateComponent" then
    e
  else e

/-- One iteration of `apply_component_updates`' query loop for a single
entity: the query is `Query<(Entity, &PendingComponentUpdate),
With<NatsSyncedEntity>>`, so only entities carrying both components are
visited; for those the component data is applied and then the
`PendingComponentUpdate` marker is removed. -/
def applyStep (e : WEntity) : WEntity :=
  if e.natsSynced.isSome then
    match e.pending with
    | some pd => { applyComponentData e pd with pending := none }
    | none => e
  else e

/-- `apply_component_updates` (src/nats_component_bridge.rs lines 120-154)
over a whole world. -/
def apply_component_updates (world : List WEntity) : List WEntity :=
  world.map applyStep

/-- The hypothesis of claim C10 on a pending update: its component type is
none of the three recognized ones, or its payload fails to decode for its
type. -/
def unknownOrUndecodable (pd : EcsComponentData) : Bool :=
  if pd.component_type = "Position3D" then (decodePosition3D pd.data).isNone
  else if pd.component_type = "Label" then (decodeLabelData pd.data).isNone
  else if pd.component_type = "WorkflowStateComponent" then
    (decodeWorkflowState pd.data).isNone
  else true

/-- A sample domain event (used for concrete scenarios). -/
def sampleEvent (i : Nat) : DomainEvent :=
  .nodeAdded ⟨⟨0⟩⟩ ⟨⟨i⟩⟩ none .null

/-- A sample visualization command (used for concrete scenarios). -/
def sampleCommand (i : Nat) : VisualizationCommand :=
  .deleteNode ⟨⟨0⟩⟩ ⟨⟨i⟩⟩

/-- The bridge of capacity 2 after two accepted domain events. -/
def twoQueuedBridge : CategoricalBridge :=
  { capacity := 2
    domainToBevy := [sampleEvent 1, sampleEvent 2]
    bevyToDomain := []
    domainReceiversAlive := true
    commandReceiversAlive := true }

/-- The bridge of capacity 1 after one accepted visualization command. -/
def oneQueuedCommandBridge : CategoricalBridge :=
  { capacity := 1
    domainToBevy := []
    bevyToDomain := [sampleCommand 1]
    domainReceiversAlive := true
    commandReceiversAlive := true }

/-- A bridge state in which every receiving endpoint of the visual → domain
channel has been dropped. -/
def droppedReceiverBridge : CategoricalBridge :=
  { capacity := 4
    domainToBevy := []
    bevyToDomain := []
    domainReceiversAlive := true
    commandReceiversAlive := false }

/-- The vector (1, 2, 3). -/
def vec123 : Vec3 := ⟨.finite 1, .finite 2, .finite 3⟩

/-- The order in which `CimVizPlugin::build` lists its `Update` systems. -/
def cimVizRegisteredOrder : List SystemId :=
  [ .processDomainEvents, .sendVisualizationCommands
  , .createNodeVisualSys, .removeNodeVisualSys
  , .createEdgeVisualSys, .removeEdgeVisualSys
  , .updateLayoutFromHints, .applyLayoutAlgorithm, .handleLayoutCommands
  , .updateEdgeVisualization, .highlightConnectedEdges, .updateEdgeWeights
  , .handleEdgeStateChanges, .animateEdgeFlow ]

/-- The same systems with the two bridge systems swapped: the
outbound-forward system runs before the inbound-drain system. -/
def cimVizSwappedOrder : List SystemId :=
  [ .sendVisualizationCommands, .processDomainEvents
  , .createNodeVisualSys, .removeNodeVisualSys
  , .createEdgeVisualSys, .removeEdgeVisualSys
  , .updateLayoutFromHints, .applyLayoutAlgorithm, .handleLayoutCommands
  , .updateEdgeVisualization, .highlightConnectedEdges, .updateEdgeWeights
  , .handleEdgeStateChanges, .animateEdgeFlow ]

/-- A two-node world in which each entity consistently carries its node id
both in its `NodeVisual` component and in its `NodeId` component. -/
def c6World : List WEntity :=
  [ { eid := 1
      nodeVisual := some ⟨⟨⟨10⟩⟩, ⟨⟨0⟩⟩⟩
      nodeIdComp := some ⟨⟨10⟩⟩
      positionComp := some ⟨.finite 0, .finite 0, .finite 0⟩ }
  , { eid := 2
      nodeVisual := some ⟨⟨⟨20⟩⟩, ⟨⟨0⟩⟩⟩
      nodeIdComp := some ⟨⟨20⟩⟩
      positionComp := some ⟨.finite 5, .finite 5, .finite 5⟩ } ]

/-- An entity carrying a `PendingComponentUpdate` of an unrecognized
component type but no `NatsSyncedEntity` marker. -/
def c10UnsyncedEntity : WEntity :=
  { eid := 0
    pending := some ⟨"Bogus", Json.null⟩ }

/-- An entity carrying both the `NatsSyncedEntity` marker and a
`PendingComponentUpdate` of an unrecognized component type. -/
def c10SyncedEntity : WEntity :=
  { eid := 3
    natsSynced := some ⟨1⟩
    pending := some ⟨"Bogus", Json.null⟩
    transform := some vec123 }

/-!
Theorems settling the claims.  General-purpose lemmas about the
definitions come first; the claim theorems and their witnesses follow.
-/

lemma drainLoop_eq (l : List α) : drainLoop l = l := by
  induction l with
  | nil => rfl
  | cons x rest ih => simp [drainLoop, ih]

lemma sendAllDomain_ok (es : List DomainEvent) :
    ∀ b : CategoricalBridge, b.domainReceiversAlive = true →
      b.domainToBevy.length + es.length ≤ b.capacity →
      sendAllDomain b es = some { b with domainToBevy := b.domainToBevy ++ es } := by
  induction es with
  | nil => intro b _ _; simp [sendAllDomain]
  | cons e rest ih =>
    intro b halive hlen
    have hlt : b.domainToBevy.length < b.capacity := by
      simp [List.length_cons] at hlen; omega
    have hstep : send_domain_event b e =
        .returns () { b with domainToBevy := b.domainToBevy ++ [e] } := by
      simp [send_domain_event, crossbeamSend, halive, hlt]
    have hrec := ih { b with domainToBevy := b.domainToBevy ++ [e] }
      (by simpa using halive)
      (by simp [List.length_append]; simp [List.length_cons] at hlen; omega)
    simp [sendAllDomain, hstep, hrec, List.append_assoc]

/-- After `remove_node_visual` has processed a removal for a node id, no
surviving entity carries that id in its `NodeId` component — provided
every entity that carries the id in its `NodeId` component also carries it
in its `NodeVisual` component (the invariant of a consistently spawned
node entity). -/
lemma remove_node_visual_clears (w : List WEntity) (ev : RemoveNodeVisualEv)
    (hco : ∀ e ∈ w, e.nodeIdComp = some ev.node_id →
      e.nodeVisual.map NodeVisualC.node_id = some ev.node_id) :
    ∀ e ∈ remove_node_visual w ev, e.nodeIdComp ≠ some ev.node_id := by
  intro e he hid
  have hmem : e ∈ w := List.mem_of_mem_filter he
  have hkeep := List.of_mem_filter he
  have hv := hco e hmem hid
  cases hnv : e.nodeVisual with
  | none => simp [hnv] at hv
  | some nv =>
    rw [hnv] at hv
    simp [Option.map] at hv
    rw [hnv] at hkeep
    simp at hkeep
    exact hkeep hv

/-- `handle_move_node` is the identity (and emits nothing) on a world in
which no entity carries the moved node id. -/
lemma handle_move_node_no_match (ev : MoveNodeCmd) :
    ∀ w : List WEntity, (∀ e ∈ w, e.nodeIdComp ≠ some ev.node_id) →
      handle_move_node w ev = (w, []) := by
  intro w
  induction w with
  | nil => intro _; rfl
  | cons e rest ih =>
    intro h
    have hrest := ih fun x hx => h x (List.mem_cons_of_mem _ hx)
    have he := h e (List.mem_cons_self _ _)
    cases hni : e.nodeIdComp with
    | none => simp [handle_move_node, hni, hrest]
    | some nid =>
      cases hps : e.positionComp with
      | none => simp [handle_move_node, hni, hps, hrest]
      | some pos =>
        have hne : nid ≠ ev.node_id := by
          intro hc
          exact he (by rw [hni, hc])
        simp [handle_move_node, hni, hps, hne, hrest]

/-- Claim C1 (code bug): on a bridge of capacity 2 with 2 undrained domain
events, a further `send_domain_event` call blocks inside the channel's
blocking `send` — it does not return a `ChannelFull` condition (the
function returns unit and can return no error at all), contradicting the
claimed non-blocking `ChannelFull` semantics; the two accepted events are
drained in their original order. -/
theorem C1_third_send_blocks_never_channel_full :
    sendAllDomain (CategoricalBridge.new 2) [sampleEvent 1, sampleEvent 2] =
        some twoQueuedBridge ∧
    send_domain_event twoQueuedBridge (sampleEvent 3) = .blocked ∧
    (receive_domain_events twoQueuedBridge).1 = [sampleEvent 1, sampleEvent 2] :=
  ⟨rfl, rfl, rfl⟩

/-- Claim C2: for every sequence of N domain events with N ≤ capacity sent
on a fresh bridge, every send returns, and a single
`receive_domain_events` call returns exactly those N events in send order
(no loss, no duplication), leaving the queue empty. -/
theorem C2_fifo_drain_exact (cap : Nat) (es : List DomainEvent)
    (h : es.length ≤ cap) :
    ∃ b : CategoricalBridge,
      sendAllDomain (CategoricalBridge.new cap) es = some b ∧
      (receive_domain_events b).1 = es ∧
      ((receive_domain_events b).2).domainToBevy = [] := by
  refine ⟨{ CategoricalBridge.new cap with domainToBevy := es }, ?_, ?_, rfl⟩
  · have hall := sendAllDomain_ok es (CategoricalBridge.new cap) rfl
      (by simpa [CategoricalBridge.new] using h)
    simpa [CategoricalBridge.new] using hall
  · simp [receive_domain_events, drainLoop_eq]

/-- Witness for C2 at capacity 2 and a concrete two-event sequence. -/
theorem C2_fifo_drain_exact_witness :
    ([sampleEvent 1, sampleEvent 2] : List DomainEvent).length ≤ 2 ∧
    (∃ b : CategoricalBridge,
      sendAllDomain (CategoricalBridge.new 2) [sampleEvent 1, sampleEvent 2] = some b ∧
      (receive_domain_events b).1 = [sampleEvent 1, sampleEvent 2] ∧
      ((receive_domain_events b).2).domainToBevy = []) :=
  ⟨by decide, C2_fifo_drain_exact 2 [sampleEvent 1, sampleEvent 2] (by decide)⟩

/-- Claim C3: `send_command` returns the `ChannelDisconnected` error
exactly when every receiving endpoint of the visual → domain channel has
been dropped, and that is the only error it can return. -/
theorem C3_disconnected_error_iff (b : CategoricalBridge)
    (c : VisualizationCommand) :
    (b.commandReceiversAlive = false →
      send_command b c = .returns (.error BridgeError.channelDisconnected) b) ∧
    (∀ err after, send_command b c = .returns (.error err) after →
      b.commandReceiversAlive = false ∧ err = BridgeError.channelDisconnected ∧
        after = b) := by
  constructor
  · intro h
    simp [send_command, crossbeamSend, h]
  · intro err after h
    unfold send_command crossbeamSend at h
    by_cases hr : b.commandReceiversAlive = false
    · simp [hr] at h
      exact ⟨hr, h.1.symm, h.2.symm⟩
    · by_cases hl : b.bevyToDomain.length < b.capacity
      · simp [hr, hl] at h
      · simp [hr, hl] at h

/-- Witness for C3: a bridge state whose visual → domain receivers have all
been dropped. -/
theorem C3_disconnected_error_iff_witness :
    send_command droppedReceiverBridge (sampleCommand 1) =
      .returns (.error BridgeError.channelDisconnected) droppedReceiverBridge :=
  (C3_disconnected_error_iff droppedReceiverBridge (sampleCommand 1)).1 rfl

/-- Claim C4 (code bug): `receive_domain_events` is indeed non-blocking and
returns the whole queue, but `send_command` uses the blocking channel
`send`: on a capacity-1 bridge holding one undrained command, the next
`send_command` call blocks instead of returning immediately, contradicting
the claimed try-send semantics for every tick-side operation. -/
theorem C4_send_command_blocks_on_full_queue :
    send_command (CategoricalBridge.new 1) (sampleCommand 1) =
      .returns (.ok ()) oneQueuedCommandBridge ∧
    send_command oneQueuedCommandBridge (sampleCommand 2) = .blocked ∧
    (∀ b : CategoricalBridge, (receive_domain_events b).1 = b.domainToBevy) :=
  ⟨rfl, rfl, fun _ => drainLoop_eq _⟩

/-- Claim C5: the bridge preserves values across both channels: a domain
event sent while the queue has room is drained intact at the end of the
FIFO, and a command sent while the queue has room is received intact from
the `command_receiver` handle. -/
theorem C5_round_trip_value_preserving (b : CategoricalBridge)
    (e : DomainEvent) (c : VisualizationCommand)
    (h1 : b.domainReceiversAlive = true)
    (h2 : b.domainToBevy.length < b.capacity)
    (h3 : b.commandReceiversAlive = true)
    (h4 : b.bevyToDomain.length < b.capacity) :
    ∃ b1 b2 : CategoricalBridge,
      send_domain_event b e = .returns () b1 ∧
      (receive_domain_events b1).1 = b.domainToBevy ++ [e] ∧
      send_command b c = .returns (.ok ()) b2 ∧
      (command_receiver_drain b2).1 = b.bevyToDomain ++ [c] := by
  refine ⟨{ b with domainToBevy := b.domainToBevy ++ [e] },
    { b with bevyToDomain := b.bevyToDomain ++ [c] }, ?_, ?_, ?_, ?_⟩
  · simp [send_domain_event, crossbeamSend, h1, h2]
  · simp [receive_domain_events, drainLoop_eq]
  · simp [send_command, crossbeamSend, h3, h4]
  · simp [command_receiver_drain, drainLoop_eq]

/-- Witness for C5 on a fresh capacity-1 bridge and concrete messages. -/
theorem C5_round_trip_value_preserving_witness :
    ∃ b1 b2 : CategoricalBridge,
      send_domain_event (CategoricalBridge.new 1) (sampleEvent 7) =
        .returns () b1 ∧
      (receive_domain_events b1).1 = [sampleEvent 7] ∧
      send_command (CategoricalBridge.new 1) (sampleCommand 9) =
        .returns (.ok ()) b2 ∧
      (command_receiver_drain b2).1 = [sampleCommand 9] := by
  have h := C5_round_trip_value_preserving (CategoricalBridge.new 1)
    (sampleEvent 7) (sampleCommand 9) rfl (by decide) rfl (by decide)
  simpa [CategoricalBridge.new] using h

/-- Claim C9: `receive_domain_events` is an exhaustive drain — it returns
the entire queue, leaves the queue empty, and an immediately following
second call returns the empty sequence. -/
theorem C9_drain_exhaustive_idempotent (b : CategoricalBridge) :
    (receive_domain_events b).1 = b.domainToBevy ∧
    ((receive_domain_events b).2).domainToBevy = [] ∧
    (receive_domain_events ((receive_domain_events b).2)).1 = [] :=
  ⟨drainLoop_eq _, rfl, rfl⟩

/-- Claim C6: under the invariant that an entity carrying a node id in its
`NodeId` component also carries that id in its `NodeVisual` component,
processing a `MoveNode` position update after `remove_node_visual` has
processed a removal of the same id is a no-op: the world is unchanged (no
entity is recreated, no other entity's position changes) and no `NodeMoved`
event is emitted. -/
theorem C6_move_after_delete_noop (w : List WEntity) (i : NodeId)
    (g : GraphId) (p : Position) (anim : Bool)
    (hco : ∀ e ∈ w, e.nodeIdComp = some i →
      e.nodeVisual.map NodeVisualC.node_id = some i) :
    handle_move_node (remove_node_visual w ⟨i, g⟩) ⟨i, p, anim⟩ =
      (remove_node_visual w ⟨i, g⟩, []) :=
  handle_move_node_no_match ⟨i, p, anim⟩ _ (remove_node_visual_clears w ⟨i, g⟩ hco)

/-- Witness for C6 on a concrete two-node world: deleting node 10 and then
moving node 10 leaves the one-node remainder untouched. -/
theorem C6_move_after_delete_noop_witness :
    handle_move_node (remove_node_visual c6World ⟨⟨⟨10⟩⟩, ⟨⟨0⟩⟩⟩)
        ⟨⟨⟨10⟩⟩, ⟨.finite 9, .finite 9, .finite 9⟩, false⟩ =
      (remove_node_visual c6World ⟨⟨⟨10⟩⟩, ⟨⟨0⟩⟩⟩, []) :=
  C6_move_after_delete_noop c6World ⟨⟨10⟩⟩ ⟨⟨0⟩⟩
    ⟨.finite 9, .finite 9, .finite 9⟩ false (by decide)

/-- Claim C7: sending a `NodeAdded` event with id X and position (1,2,3)
through a fresh bridge, draining it, routing it through the demo consumer
and running `create_node_visual` materializes exactly one visual entity
whose transform translation is (1,2,3) and whose `NodeVisual` component
carries id X. -/
theorem C7_node_added_materializes_one_entity (cap : Nat) (hcap : 0 < cap)
    (X : NodeId) (g : GraphId) (md : Json) (eid0 u0 : Nat) :
    ∃ b1 : CategoricalBridge,
      send_domain_event (CategoricalBridge.new cap)
        (.nodeAdded g X (some vec123) md) = .returns () b1 ∧
      (receive_domain_events b1).1 = [.nodeAdded g X (some vec123) md] ∧
      (handle_domain_events (receive_domain_events b1).1).createNodes =
        [⟨g, X, vec123, md⟩] ∧
      (create_node_visual ⟨[], [], eid0, u0⟩
          (handle_domain_events (receive_domain_events b1).1).createNodes).world =
        [{ eid := eid0, nodeVisual := some ⟨X, ⟨⟨u0⟩⟩⟩,
           transform := some vec123 }] := by
  refine ⟨{ CategoricalBridge.new cap with
      domainToBevy := [.nodeAdded g X (some vec123) md] }, ?_, ?_, ?_, ?_⟩
  · simp [send_domain_event, crossbeamSend, CategoricalBridge.new, hcap]
  · simp [receive_domain_events, drainLoop]
  · simp [receive_domain_events, drainLoop, handle_domain_events]
  · simp [receive_domain_events, drainLoop, handle_domain_events,
      create_node_visual, NodeVisualBundle.new]

/-- Witness for C7 at capacity 1 with concrete ids. -/
theorem C7_node_added_materializes_one_entity_witness :
    ∃ b1 : CategoricalBridge,
      send_domain_event (CategoricalBridge.new 1)
        (.nodeAdded ⟨⟨0⟩⟩ ⟨⟨42⟩⟩ (some vec123) .null) = .returns () b1 ∧
      (receive_domain_events b1).1 = [.nodeAdded ⟨⟨0⟩⟩ ⟨⟨42⟩⟩ (some vec123) .null] ∧
      (handle_domain_events (receive_domain_events b1).1).createNodes =
        [⟨⟨⟨0⟩⟩, ⟨⟨42⟩⟩, vec123, .null⟩] ∧
      (create_node_visual ⟨[], [], 0, 0⟩
          (handle_domain_events (receive_domain_events b1).1).createNodes).world =
        [{ eid := 0, nodeVisual := some ⟨⟨⟨42⟩⟩, ⟨⟨0⟩⟩⟩,
           transform := some vec123 }] :=
  C7_node_added_materializes_one_entity 1 (by decide) ⟨⟨42⟩⟩ ⟨⟨0⟩⟩ .null 0 0

/-- Claim C8 counterexample: the schedule that runs the outbound-forward
system `send_visualization_commands` before the inbound-drain system
`process_domain_events` is a valid execution order for the systems
`CimVizPlugin::build` registers — the plain (unchained) tuple imposes no
ordering — so the claimed always-inbound-first ordering is false. -/
theorem C8_counterexample_swapped_schedule_valid :
    validSchedule cimVizUpdateSystems cimVizSwappedOrder ∧
    ¬ precedes cimVizSwappedOrder SystemId.processDomainEvents
        SystemId.sendVisualizationCommands := by
  constructor
  · constructor
    · decide
    · decide
  · decide

/-- Claim C8 amended: `CimVizPlugin::build` registers both bridge systems
to run every tick, but with no ordering constraint between them: both the
inbound-first and the outbound-first execution orders are valid
schedules. -/
theorem C8_amended_bridge_systems_unordered :
    SystemId.processDomainEvents ∈ allSystems cimVizUpdateSystems ∧
    SystemId.sendVisualizationCommands ∈ allSystems cimVizUpdateSystems ∧
    ¬ mustPrecede cimVizUpdateSystems SystemId.processDomainEvents
        SystemId.sendVisualizationCommands ∧
    ¬ mustPrecede cimVizUpdateSystems SystemId.sendVisualizationCommands
        SystemId.processDomainEvents ∧
    (validSchedule cimVizUpdateSystems cimVizRegisteredOrder ∧
      precedes cimVizRegisteredOrder SystemId.processDomainEvents
        SystemId.sendVisualizationCommands) ∧
    (validSchedule cimVizUpdateSystems cimVizSwappedOrder ∧
      precedes cimVizSwappedOrder SystemId.sendVisualizationCommands
        SystemId.processDomainEvents) := by
  refine ⟨by decide, by decide, by decide, by decide,
    ⟨⟨by decide, by decide⟩, by decide⟩, ⟨⟨by decide, by decide⟩, by decide⟩⟩

/-- Claim C10 counterexample: an entity carrying a `PendingComponentUpdate`
of an unrecognized component type but no `NatsSyncedEntity` marker is
outside the query of `apply_component_updates`, so the marker is NOT
removed — contradicting the claim, which quantifies over every entity
carrying a `PendingComponentUpdate`. -/
theorem C10_counterexample_unsynced_entity_untouched :
    apply_component_updates [c10UnsyncedEntity] = [c10UnsyncedEntity] ∧
    c10UnsyncedEntity.pending.isSome = true :=
  ⟨rfl, rfl⟩

/-- Claim C10 amended: for every entity carrying BOTH the
`NatsSyncedEntity` marker and a `PendingComponentUpdate` whose component
type is not one of Position3D / Label / WorkflowStateComponent or whose
payload fails to decode, `apply_component_updates` removes exactly the
`PendingComponentUpdate` component of that entity and leaves its other
components (and every other entity) unchanged. -/
theorem C10_amended_only_marker_removed (pre post : List WEntity)
    (e : WEntity) (pd : EcsComponentData)
    (hsync : e.natsSynced.isSome = true) (hpend : e.pending = some pd)
    (hbad : unknownOrUndecodable pd = true) :
    apply_component_updates (pre ++ e :: post) =
      apply_component_updates pre ++
        ({ e with pending := none } :: apply_component_updates post) := by
  have hdata : applyComponentData e pd = e := by
    unfold unknownOrUndecodable at hbad
    unfold applyComponentData
    by_cases h1 : pd.component_type = "Position3D"
    · rw [if_pos h1] at hbad ⊢
      rw [Option.isNone_iff_eq_none] at hbad
      rw [hbad]
    · rw [if_neg h1] at hbad ⊢
      by_cases h2 : pd.component_type = "Label"
      · rw [if_pos h2] at hbad ⊢
        rw [Option.isNone_iff_eq_none] at hbad
        rw [hbad]
      · rw [if_neg h2] at hbad ⊢
        by_cases h3 : pd.component_type = "WorkflowStateComponent"
        · rw [if_pos h3]
        · rw [if_neg h3]
  have hstep : applyStep e = { e with pending := none } := by
    unfold applyStep
    rw [hsync, if_pos rfl, hpend]
    show { applyComponentData e pd with pending := none } = { e with pending := none }
    rw [hdata]
  simp [apply_component_updates, List.map_append, hstep]

/-- Witness for C10 amended on a concrete synced entity whose pending
update has the unrecognized type "Bogus". -/
theorem C10_amended_only_marker_removed_witness :
    apply_component_updates [c10SyncedEntity] =
      [{ c10SyncedEntity with pending := none }] := by
  have h := C10_amended_only_marker_removed [] [] c10SyncedEntity
    ⟨"Bogus", Json.null⟩ rfl rfl (by decide)
  simpa [apply_component_updates] using h
